import Mathlib

/-!
Shallow embedding of the `SupplyChain` contract
(`src/blockchain/SupplyChain.sol`) and proofs about its operations.

Addresses and unsigned integers are modelled as `Nat` (no arithmetic in the
contract ever overflows a `uint256` counter in the scenarios considered, and
the only arithmetic is `productCounter++`).  Solidity mappings are total
functions with the zero-value default; `revert` is modelled by `Except`:
an `.error` result leaves the pre-state in force (see `step`).
-/

namespace SupplyChain

abbrev Addr := Nat

/-- The `Stage` enum of the contract, in declaration order. -/
inductive Stage where
  | Harvest
  | QualityCheck
  | Processing
  | Packaging
  | Storage
  | Transport
  | Warehouse
  | Delivery
  | Delivered
deriving DecidableEq, Repr

/-- Ordinal of a stage, i.e. `uint8(stage)` in Solidity. -/
def Stage.ord : Stage → Nat
  | .Harvest => 0
  | .QualityCheck => 1
  | .Processing => 2
  | .Packaging => 3
  | .Storage => 4
  | .Transport => 5
  | .Warehouse => 6
  | .Delivery => 7
  | .Delivered => 8

/-- The `Role` enum of the contract, in declaration order. -/
inductive Role where
  | Admin
  | Farmer
  | QualityInspector
  | Processor
  | Packager
  | Transporter
  | WarehouseManager
  | Retailer
  | DeliveryPartner
deriving DecidableEq, Repr

/-- The `Product` struct.  The Solidity field `exists` is a keyword-safe
`exists_` here. -/
structure Product where
  productId : Nat
  productName : String
  productType : String
  harvestDate : Nat
  origin : String
  farmer : Addr
  currentStage : Stage
  isOrganic : Bool
  isCertified : Bool
  qualityScore : Nat
  temperature : Nat
  exists_ : Bool
deriving DecidableEq, Repr

/-- The `Checkpoint` struct. -/
structure Checkpoint where
  stage : Stage
  location : String
  timestamp : Nat
  verifiedBy : Addr
  verifierName : String
  verifierRole : Role
  temperature : Nat
  notes : String
  ipfsHash : String
deriving DecidableEq, Repr

/-- The `Certification` struct. -/
structure Certification where
  certName : String
  certAuthority : String
  certDate : Nat
  expiryDate : Nat
  certHash : String
  isValid : Bool
deriving DecidableEq, Repr

/-- The `Participant` struct. -/
structure Participant where
  participantAddress : Addr
  name : String
  contactInfo : String
  role : Role
  isActive : Bool
  registrationDate : Nat
deriving DecidableEq, Repr

/-- Zero value of `Product` (Solidity mapping default). -/
def defaultProduct : Product :=
  { productId := 0, productName := "", productType := "", harvestDate := 0,
    origin := "", farmer := 0, currentStage := .Harvest, isOrganic := false,
    isCertified := false, qualityScore := 0, temperature := 0, exists_ := false }

/-- Zero value of `Participant` (Solidity mapping default). -/
def defaultParticipant : Participant :=
  { participantAddress := 0, name := "", contactInfo := "", role := .Admin,
    isActive := false, registrationDate := 0 }

/-- Point update of a mapping keyed by `Nat`. -/
def updNat {α : Type} (f : Nat → α) (k : Nat) (v : α) : Nat → α :=
  fun i => if i = k then v else f i

/-- The contract's full storage. -/
structure ChainState where
  owner : Addr
  productCounter : Nat
  products : Nat → Product
  productJourney : Nat → List Checkpoint
  productCertifications : Nat → List Certification
  participants : Addr → Participant
  productAccessControl : Nat → Addr → Bool

/-- Typed failure outcomes, one per distinct `require` in the contract
(names follow the spec's error taxonomy). -/
inductive Err where
  | NotOwner
  | NotActive
  | NotFound
  | Unauthorized
  | AlreadyRegistered
  | InvalidTransition
  | OutOfRange
  | IndexOutOfRange
deriving DecidableEq, Repr

/-- The constructor: sets the owner, zeroes the counter, and registers the
owner as the active Admin participant "System Admin". -/
def initState (owner : Addr) (now : Nat) : ChainState :=
  { owner := owner
    productCounter := 0
    products := fun _ => defaultProduct
    productJourney := fun _ => []
    productCertifications := fun _ => []
    participants := updNat (fun _ => defaultParticipant) owner
      ({ participantAddress := owner, name := "System Admin",
         contactInfo := "admin@foodchain.com", role := .Admin,
         isActive := true, registrationDate := now })
    productAccessControl := fun _ _ => false }

/-- `registerParticipant`: owner-only; rejects an address whose current
record is active; otherwise overwrites the record with a fresh active one. -/
def registerParticipant (s : ChainState) (sender addr : Addr)
    (name contactInfo : String) (role : Role) (now : Nat) :
    Except Err ChainState :=
  if sender ≠ s.owner then .error .NotOwner
  else if (s.participants addr).isActive then .error .AlreadyRegistered
  else
    let p : Participant :=
      { participantAddress := addr, name := name, contactInfo := contactInfo,
        role := role, isActive := true, registrationDate := now }
    .ok { s with participants := updNat s.participants addr p }

/-- `registerProduct`: active-participant and Farmer checks (in that order),
then increments the counter, stores the product at the new id, pushes the
initial Harvest checkpoint, grants the farmer access and returns the id. -/
def registerProduct (s : ChainState) (sender : Addr)
    (productName productType origin : String) (isOrganic : Bool) (now : Nat) :
    Except Err (ChainState × Nat) :=
  if ¬ (s.participants sender).isActive then .error .NotActive
  else if (s.participants sender).role ≠ .Farmer then .error .Unauthorized
  else
    let pid := s.productCounter + 1
    let p : Product :=
      { productId := pid, productName := productName,
        productType := productType, harvestDate := now, origin := origin,
        farmer := sender, currentStage := .Harvest, isOrganic := isOrganic,
        isCertified := false, qualityScore := 0, temperature := 0,
        exists_ := true }
    let cp : Checkpoint :=
      { stage := .Harvest, location := origin, timestamp := now,
        verifiedBy := sender, verifierName := (s.participants sender).name,
        verifierRole := .Farmer, temperature := 0,
        notes := "Product harvested", ipfsHash := "" }
    let acc : Nat → Addr → Bool := fun q a =>
      if q = pid ∧ a = sender then true else s.productAccessControl q a
    .ok ({ s with
      productCounter := pid
      products := updNat s.products pid p
      productJourney := updNat s.productJourney pid (s.productJourney pid ++ [cp])
      productAccessControl := acc }, pid)

/-- `addCheckpoint`: active-participant and product-existence checks, then
requires `uint8(stage) > uint8(currentStage)`; on success pushes the
checkpoint and updates the product's stage and temperature. -/
def addCheckpoint (s : ChainState) (sender : Addr) (pid : Nat) (stage : Stage)
    (location : String) (temperature : Nat) (notes ipfsHash : String)
    (now : Nat) : Except Err ChainState :=
  if ¬ (s.participants sender).isActive then .error .NotActive
  else if ¬ (s.products pid).exists_ then .error .NotFound
  else if ¬ (Stage.ord (s.products pid).currentStage < Stage.ord stage) then
    .error .InvalidTransition
  else
    let cp : Checkpoint :=
      { stage := stage, location := location, timestamp := now,
        verifiedBy := sender, verifierName := (s.participants sender).name,
        verifierRole := (s.participants sender).role,
        temperature := temperature, notes := notes, ipfsHash := ipfsHash }
    let p : Product :=
      { s.products pid with currentStage := stage, temperature := temperature }
    .ok { s with
      productJourney := updNat s.productJourney pid (s.productJourney pid ++ [cp])
      products := updNat s.products pid p }

/-- `addCertification`: active-participant and product-existence checks, then
pushes the certification and sets `isCertified`. -/
def addCertification (s : ChainState) (sender : Addr) (pid : Nat)
    (certName certAuthority : String) (expiryDate : Nat) (certHash : String)
    (now : Nat) : Except Err ChainState :=
  if ¬ (s.participants sender).isActive then .error .NotActive
  else if ¬ (s.products pid).exists_ then .error .NotFound
  else
    let c : Certification :=
      { certName := certName, certAuthority := certAuthority,
        certDate := now, expiryDate := expiryDate, certHash := certHash,
        isValid := true }
    let p : Product := { s.products pid with isCertified := true }
    .ok { s with
      productCertifications := updNat s.productCertifications pid
        (s.productCertifications pid ++ [c])
      products := updNat s.products pid p }

/-- `updateQualityScore`: active-participant, QualityInspector and
product-existence checks (in that order), then requires `score ≤ 100` and
overwrites the score. -/
def updateQualityScore (s : ChainState) (sender : Addr) (pid score : Nat) :
    Except Err ChainState :=
  if ¬ (s.participants sender).isActive then .error .NotActive
  else if (s.participants sender).role ≠ .QualityInspector then
    .error .Unauthorized
  else if ¬ (s.products pid).exists_ then .error .NotFound
  else if ¬ (score ≤ 100) then .error .OutOfRange
  else
    let p : Product := { s.products pid with qualityScore := score }
    .ok { s with products := updNat s.products pid p }

/-- `markDelivered`: active-participant, product-existence and
DeliveryPartner checks (in that order); then unconditionally sets the stage
to Delivered and pushes a terminal checkpoint at "Customer Location"
carrying the product's last recorded temperature. -/
def markDelivered (s : ChainState) (sender : Addr) (pid : Nat)
    (customer : Addr) (now : Nat) : Except Err ChainState :=
  if ¬ (s.participants sender).isActive then .error .NotActive
  else if ¬ (s.products pid).exists_ then .error .NotFound
  else if (s.participants sender).role ≠ .DeliveryPartner then
    .error .Unauthorized
  else
    let p : Product := { s.products pid with currentStage := .Delivered }
    let cp : Checkpoint :=
      { stage := .Delivered, location := "Customer Location",
        timestamp := now, verifiedBy := sender,
        verifierName := (s.participants sender).name,
        verifierRole := .DeliveryPartner,
        temperature := (s.products pid).temperature,
        notes := "Product delivered to customer", ipfsHash := "" }
    .ok { s with
      products := updNat s.products pid p
      productJourney := updNat s.productJourney pid (s.productJourney pid ++ [cp]) }

/-- `deactivateParticipant`: owner-only; clears the active flag. -/
def deactivateParticipant (s : ChainState) (sender addr : Addr) :
    Except Err ChainState :=
  if sender ≠ s.owner then .error .NotOwner
  else
    let p : Participant := { s.participants addr with isActive := false }
    .ok { s with participants := updNat s.participants addr p }

/-- `getProductJourney`. -/
def getProductJourney (s : ChainState) (pid : Nat) :
    Except Err (List Checkpoint) :=
  if ¬ (s.products pid).exists_ then .error .NotFound
  else .ok (s.productJourney pid)

/-- `getProductCertifications`. -/
def getProductCertifications (s : ChainState) (pid : Nat) :
    Except Err (List Certification) :=
  if ¬ (s.products pid).exists_ then .error .NotFound
  else .ok (s.productCertifications pid)

/-- `getCheckpointCount`. -/
def getCheckpointCount (s : ChainState) (pid : Nat) : Except Err Nat :=
  if ¬ (s.products pid).exists_ then .error .NotFound
  else .ok (s.productJourney pid).length

/-- `getCheckpoint`: returns the seven exposed fields of the checkpoint at
`idx`, failing when the index is out of range. -/
def getCheckpoint (s : ChainState) (pid idx : Nat) :
    Except Err (Stage × String × Nat × Addr × String × Nat × String) :=
  if ¬ (s.products pid).exists_ then .error .NotFound
  else if h : idx < (s.productJourney pid).length then
    let cp := (s.productJourney pid).get ⟨idx, h⟩
    .ok (cp.stage, cp.location, cp.timestamp, cp.verifiedBy, cp.verifierName,
      cp.temperature, cp.notes)
  else .error .IndexOutOfRange

/-- `getParticipant`: total, returns the stored (or default) record's
exposed fields. -/
def getParticipant (s : ChainState) (a : Addr) :
    String × Role × Bool × Nat :=
  ((s.participants a).name, (s.participants a).role,
   (s.participants a).isActive, (s.participants a).registrationDate)

/-- `getTotalProducts`. -/
def getTotalProducts (s : ChainState) : Nat :=
  s.productCounter

/-- One invocation of a mutating entry point, with its sender and the block
timestamp at which it runs. -/
inductive Op where
  | registerParticipant (sender addr : Addr) (name contactInfo : String)
      (role : Role) (now : Nat)
  | registerProduct (sender : Addr) (productName productType origin : String)
      (isOrganic : Bool) (now : Nat)
  | addCheckpoint (sender : Addr) (pid : Nat) (stage : Stage)
      (location : String) (temperature : Nat) (notes ipfsHash : String)
      (now : Nat)
  | addCertification (sender : Addr) (pid : Nat)
      (certName certAuthority : String) (expiryDate : Nat) (certHash : String)
      (now : Nat)
  | updateQualityScore (sender : Addr) (pid score : Nat)
  | markDelivered (sender : Addr) (pid : Nat) (customer : Addr) (now : Nat)
  | deactivateParticipant (sender addr : Addr)
deriving DecidableEq, Repr

/-- Transaction semantics: a reverted call leaves the state unchanged. -/
def step (s : ChainState) : Op → ChainState
  | .registerParticipant sender addr name ci role now =>
    match registerParticipant s sender addr name ci role now with
    | .ok s' => s'
    | .error _ => s
  | .registerProduct sender pn pt og org now =>
    match registerProduct s sender pn pt og org now with
    | .ok (s', _) => s'
    | .error _ => s
  | .addCheckpoint sender pid stage loc temp notes ipfs now =>
    match addCheckpoint s sender pid stage loc temp notes ipfs now with
    | .ok s' => s'
    | .error _ => s
  | .addCertification sender pid cn ca ed ch now =>
    match addCertification s sender pid cn ca ed ch now with
    | .ok s' => s'
    | .error _ => s
  | .updateQualityScore sender pid score =>
    match updateQualityScore s sender pid score with
    | .ok s' => s'
    | .error _ => s
  | .markDelivered sender pid customer now =>
    match markDelivered s sender pid customer now with
    | .ok s' => s'
    | .error _ => s
  | .deactivateParticipant sender addr =>
    match deactivateParticipant s sender addr with
    | .ok s' => s'
    | .error _ => s

/-- Run a sequence of invocations from a state. -/
def execOps (s : ChainState) : List Op → ChainState
  | [] => s
  | op :: ops => execOps (step s op) ops

/-- The stages recorded along a journey. -/
def stagesOf (l : List Checkpoint) : List Stage :=
  l.map (·.stage)

/-- Stage of the most recently appended checkpoint, if any. -/
def lastStage? (l : List Checkpoint) : Option Stage :=
  l.getLast?.map (·.stage)

/-- Relation between adjacent stages in a reachable journey: the ordinal
strictly increases, except that `markDelivered` can repeat `Delivered`. -/
def StageAdj (a b : Stage) : Prop :=
  a.ord < b.ord ∨ (a = .Delivered ∧ b = .Delivered)

theorem updNat_self {α : Type} (f : Nat → α) (k : Nat) (v : α) :
    updNat f k v k = v :=
  if_pos rfl

theorem updNat_other {α : Type} (f : Nat → α) (k : Nat) (v : α) {q : Nat}
    (h : q ≠ k) : updNat f k v q = f q :=
  if_neg h

theorem stageAdj_delivered (st : Stage) : StageAdj st .Delivered := by
  cases st <;> simp [StageAdj, Stage.ord]

theorem stageAdj_ord_le {a b : Stage} (h : StageAdj a b) : a.ord ≤ b.ord := by
  rcases h with h | ⟨h1, h2⟩
  · exact Nat.le_of_lt h
  · subst h1; subst h2; exact Nat.le_refl _

theorem stagesOf_append (l₁ l₂ : List Checkpoint) :
    stagesOf (l₁ ++ l₂) = stagesOf l₁ ++ stagesOf l₂ :=
  List.map_append _ l₁ l₂

theorem lastStage?_concat (l : List Checkpoint) (cp : Checkpoint) :
    lastStage? (l ++ [cp]) = some cp.stage := by
  simp [lastStage?, List.getLast?_concat]

theorem chain'_stages_concat (l : List Checkpoint) (cp : Checkpoint)
    (hc : List.Chain' StageAdj (stagesOf l))
    (hlast : ∀ c, lastStage? l = some c → StageAdj c cp.stage) :
    List.Chain' StageAdj (stagesOf (l ++ [cp])) := by
  rw [stagesOf_append]
  rw [List.chain'_append]
  refine ⟨hc, List.chain'_singleton _, ?_⟩
  intro x hx y hy
  have hx' : lastStage? l = some x := by
    have := List.getLast?_map (Checkpoint.stage) l
    simpa [lastStage?, stagesOf, this] using hx
  have hy' : cp.stage = y := by
    simpa [stagesOf] using hy
  rw [← hy']
  exact hlast x hx'

/-- The ledger invariant on the fields that evolve with products:
product ids registered so far are exactly `1..counter`, unregistered ids
have empty journeys, and every registered journey ends at the product's
current stage with `StageAdj` holding between adjacent checkpoints. -/
def Inv (counter : Nat) (products : Nat → Product)
    (journey : Nat → List Checkpoint) : Prop :=
  (∀ pid, (products pid).exists_ = true ↔ 1 ≤ pid ∧ pid ≤ counter) ∧
  (∀ pid, (products pid).exists_ = false → journey pid = []) ∧
  (∀ pid, (products pid).exists_ = true →
    lastStage? (journey pid) = some (products pid).currentStage ∧
    List.Chain' StageAdj (stagesOf (journey pid)))

/-- The invariant instantiated at a contract state. -/
def InvS (s : ChainState) : Prop :=
  Inv s.productCounter s.products s.productJourney

theorem inv_init (o : Addr) (now : Nat) : InvS (initState o now) := by
  refine ⟨?_, ?_, ?_⟩
  · intro pid
    simp [initState, defaultProduct]
    omega
  · intro pid _
    rfl
  · intro pid hpid
    simp [initState, defaultProduct] at hpid

/-- Updating one product without changing its `exists_` flag or current
stage (and leaving counter and journeys alone) preserves the invariant. -/
theorem inv_update_product (counter : Nat) (products : Nat → Product)
    (journey : Nat → List Checkpoint) (pid : Nat) (p : Product)
    (h : Inv counter products journey)
    (hpe : p.exists_ = (products pid).exists_)
    (hps : p.currentStage = (products pid).currentStage) :
    Inv counter (updNat products pid p) journey := by
  obtain ⟨h1, h2, h3⟩ := h
  refine ⟨?_, ?_, ?_⟩
  · intro q
    by_cases hq : q = pid
    · rw [hq, updNat_self, hpe]
      exact h1 pid
    · rw [updNat_other _ _ _ hq]
      exact h1 q
  · intro q hq
    by_cases hq' : q = pid
    · rw [hq', updNat_self, hpe] at hq
      rw [hq']
      exact h2 pid hq
    · rw [updNat_other _ _ _ hq'] at hq
      exact h2 q hq
  · intro q hq
    by_cases hq' : q = pid
    · rw [hq', updNat_self] at hq ⊢
      rw [hpe] at hq
      rw [hps]
      exact h3 pid hq
    · rw [updNat_other _ _ _ hq'] at hq ⊢
      exact h3 q hq

/-- Appending a checkpoint to an existing product while moving its current
stage to the checkpoint's stage preserves the invariant, provided
`StageAdj` holds from the old current stage. -/
theorem inv_push (counter : Nat) (products : Nat → Product)
    (journey : Nat → List Checkpoint) (pid : Nat) (p : Product)
    (cp : Checkpoint) (h : Inv counter products journey)
    (hex : (products pid).exists_ = true)
    (hpe : p.exists_ = true)
    (hps : p.currentStage = cp.stage)
    (hadj : StageAdj (products pid).currentStage cp.stage) :
    Inv counter (updNat products pid p)
      (updNat journey pid (journey pid ++ [cp])) := by
  obtain ⟨h1, h2, h3⟩ := h
  refine ⟨?_, ?_, ?_⟩
  · intro q
    by_cases hq : q = pid
    · rw [hq, updNat_self]
      exact iff_of_true hpe ((h1 pid).mp hex)
    · rw [updNat_other _ _ _ hq]
      exact h1 q
  · intro q hq
    by_cases hq' : q = pid
    · rw [hq', updNat_self, hpe] at hq
      exact absurd hq (by simp)
    · rw [updNat_other _ _ _ hq'] at hq
      rw [updNat_other _ _ _ hq']
      exact h2 q hq
  · intro q hq
    by_cases hq' : q = pid
    · rw [hq', updNat_self] at hq ⊢
      rw [updNat_self]
      obtain ⟨hl, hc⟩ := h3 pid hex
      refine ⟨by rw [lastStage?_concat, hps], ?_⟩
      refine chain'_stages_concat _ _ hc ?_
      intro c hcl
      rw [hl] at hcl
      cases hcl
      exact hadj
    · rw [updNat_other _ _ _ hq'] at hq ⊢
      rw [updNat_other _ _ _ hq']
      exact h3 q hq

/-- Registering a fresh product (id `counter + 1`, a new one-element
journey whose checkpoint stage is the product's current stage) preserves
the invariant. -/
theorem inv_register (counter : Nat) (products : Nat → Product)
    (journey : Nat → List Checkpoint) (p : Product) (cp : Checkpoint)
    (h : Inv counter products journey)
    (hpe : p.exists_ = true)
    (hps : p.currentStage = cp.stage) :
    Inv (counter + 1) (updNat products (counter + 1) p)
      (updNat journey (counter + 1) (journey (counter + 1) ++ [cp])) := by
  obtain ⟨h1, h2, h3⟩ := h
  have hnew : (products (counter + 1)).exists_ = false := by
    by_cases hb : (products (counter + 1)).exists_ = true
    · have := (h1 (counter + 1)).mp hb
      omega
    · simpa using hb
  have hjnew : journey (counter + 1) = [] := h2 _ hnew
  refine ⟨?_, ?_, ?_⟩
  · intro q
    by_cases hq : q = counter + 1
    · rw [hq, updNat_self]
      exact iff_of_true hpe (by omega)
    · rw [updNat_other _ _ _ hq]
      rw [h1 q]
      omega
  · intro q hq
    by_cases hq' : q = counter + 1
    · rw [hq', updNat_self, hpe] at hq
      exact absurd hq (by simp)
    · rw [updNat_other _ _ _ hq'] at hq
      rw [updNat_other _ _ _ hq']
      exact h2 q hq
  · intro q hq
    by_cases hq' : q = counter + 1
    · rw [hq', updNat_self] at hq ⊢
      rw [updNat_self]
      rw [hjnew]
      refine ⟨by rw [lastStage?_concat, hps], ?_⟩
      simpa [stagesOf] using List.chain'_singleton cp.stage
    · rw [updNat_other _ _ _ hq'] at hq ⊢
      rw [updNat_other _ _ _ hq']
      exact h3 q hq

/-- Every mutating entry point preserves the ledger invariant. -/
theorem inv_step (s : ChainState) (op : Op) (h : InvS s) : InvS (step s op) := by
  cases op with
  | registerParticipant sd a n c r t =>
    simp only [step]
    unfold registerParticipant
    by_cases h1 : sd ≠ s.owner
    · rw [if_pos h1]; exact h
    · rw [if_neg h1]
      by_cases h2 : (s.participants a).isActive
      · rw [if_pos h2]; exact h
      · rw [if_neg h2]; exact h
  | registerProduct sd pn pt og org now =>
    simp only [step]
    unfold registerProduct
    by_cases h1 : (s.participants sd).isActive
    · rw [if_neg (not_not_intro h1)]
      by_cases h2 : (s.participants sd).role ≠ .Farmer
      · rw [if_pos h2]; exact h
      · rw [if_neg h2]
        exact inv_register s.productCounter s.products s.productJourney _ _ h
          rfl rfl
    · rw [if_pos h1]; exact h
  | addCheckpoint sd pid stage loc temp notes ipfs now =>
    simp only [step]
    unfold addCheckpoint
    by_cases h1 : (s.participants sd).isActive
    · rw [if_neg (not_not_intro h1)]
      by_cases h2 : (s.products pid).exists_
      · rw [if_neg (not_not_intro h2)]
        by_cases h3 : Stage.ord (s.products pid).currentStage < Stage.ord stage
        · rw [if_neg (not_not_intro h3)]
          exact inv_push s.productCounter s.products s.productJourney pid _ _ h
            h2 h2 rfl (Or.inl h3)
        · rw [if_pos h3]; exact h
      · rw [if_pos h2]; exact h
    · rw [if_pos h1]; exact h
  | addCertification sd pid cn ca ed ch now =>
    simp only [step]
    unfold addCertification
    by_cases h1 : (s.participants sd).isActive
    · rw [if_neg (not_not_intro h1)]
      by_cases h2 : (s.products pid).exists_
      · rw [if_neg (not_not_intro h2)]
        exact inv_update_product s.productCounter s.products s.productJourney
          pid _ h rfl rfl
      · rw [if_pos h2]; exact h
    · rw [if_pos h1]; exact h
  | updateQualityScore sd pid score =>
    simp only [step]
    unfold updateQualityScore
    by_cases h1 : (s.participants sd).isActive
    · rw [if_neg (not_not_intro h1)]
      by_cases h2 : (s.participants sd).role ≠ .QualityInspector
      · rw [if_pos h2]; exact h
      · rw [if_neg h2]
        by_cases h3 : (s.products pid).exists_
        · rw [if_neg (not_not_intro h3)]
          by_cases h4 : score ≤ 100
          · rw [if_neg (not_not_intro h4)]
            exact inv_update_product s.productCounter s.products
              s.productJourney pid _ h rfl rfl
          · rw [if_pos h4]; exact h
        · rw [if_pos h3]; exact h
    · rw [if_pos h1]; exact h
  | markDelivered sd pid customer now =>
    simp only [step]
    unfold markDelivered
    by_cases h1 : (s.participants sd).isActive
    · rw [if_neg (not_not_intro h1)]
      by_cases h2 : (s.products pid).exists_
      · rw [if_neg (not_not_intro h2)]
        by_cases h3 : (s.participants sd).role ≠ .DeliveryPartner
        · rw [if_pos h3]; exact h
        · rw [if_neg h3]
          exact inv_push s.productCounter s.products s.productJourney pid _ _ h
            h2 h2 rfl (stageAdj_delivered _)
      · rw [if_pos h2]; exact h
    · rw [if_pos h1]; exact h
  | deactivateParticipant sd a =>
    simp only [step]
    unfold deactivateParticipant
    by_cases h1 : sd ≠ s.owner
    · rw [if_pos h1]; exact h
    · rw [if_neg h1]; exact h

/-- The invariant holds along any run. -/
theorem inv_exec (s : ChainState) (ops : List Op) (h : InvS s) :
    InvS (execOps s ops) := by
  induction ops generalizing s with
  | nil => exact h
  | cons op ops ih => exact ih (step s op) (inv_step s op h)

/-- The invariant holds in every reachable state. -/
theorem inv_reach (o : Addr) (t0 : Nat) (ops : List Op) :
    InvS (execOps (initState o t0) ops) :=
  inv_exec _ ops (inv_init o t0)

/-- Whether an invocation is a `registerProduct` call that succeeds in the
given state. -/
def isOkReg (s : ChainState) : Op → Bool
  | .registerProduct sd pn pt og org now =>
    match registerProduct s sd pn pt og org now with
    | .ok _ => true
    | .error _ => false
  | _ => false

/-- Number of successful product registrations along a run. -/
def countReg (s : ChainState) : List Op → Nat
  | [] => 0
  | op :: ops => (if isOkReg s op then 1 else 0) + countReg (step s op) ops

theorem counter_step (s : ChainState) (op : Op) :
    (step s op).productCounter =
      s.productCounter + (if isOkReg s op then 1 else 0) := by
  cases op with
  | registerProduct sd pn pt og org now =>
    simp only [step, isOkReg]
    unfold registerProduct
    by_cases h1 : (s.participants sd).isActive
    · by_cases h2 : (s.participants sd).role = .Farmer
      · simp [h1, h2]
      · simp [h1, h2]
    · simp [h1]
  | registerParticipant sd a n c r t =>
    simp only [step, isOkReg]
    unfold registerParticipant
    by_cases h1 : sd = s.owner
    · by_cases h2 : (s.participants a).isActive
      · simp [h1, h2]
      · simp [h1, h2]
    · simp [h1]
  | addCheckpoint sd pid stage loc temp notes ipfs now =>
    simp only [step, isOkReg]
    unfold addCheckpoint
    by_cases h1 : (s.participants sd).isActive
    · by_cases h2 : (s.products pid).exists_
      · by_cases h3 : Stage.ord (s.products pid).currentStage < Stage.ord stage
        · simp [h1, h2, h3]
        · simp [h1, h2, h3]
      · simp [h1, h2]
    · simp [h1]
  | addCertification sd pid cn ca ed ch now =>
    simp only [step, isOkReg]
    unfold addCertification
    by_cases h1 : (s.participants sd).isActive
    · by_cases h2 : (s.products pid).exists_
      · simp [h1, h2]
      · simp [h1, h2]
    · simp [h1]
  | updateQualityScore sd pid score =>
    simp only [step, isOkReg]
    unfold updateQualityScore
    by_cases h1 : (s.participants sd).isActive
    · by_cases h2 : (s.participants sd).role = .QualityInspector
      · by_cases h3 : (s.products pid).exists_
        · by_cases h4 : score ≤ 100
          · simp [h1, h2, h3, h4]
          · simp [h1, h2, h3, h4]
        · simp [h1, h2, h3]
      · simp [h1, h2]
    · simp [h1]
  | markDelivered sd pid customer now =>
    simp only [step, isOkReg]
    unfold markDelivered
    by_cases h1 : (s.participants sd).isActive
    · by_cases h2 : (s.products pid).exists_
      · by_cases h3 : (s.participants sd).role = .DeliveryPartner
        · simp [h1, h2, h3]
        · simp [h1, h2, h3]
      · simp [h1, h2]
    · simp [h1]
  | deactivateParticipant sd a =>
    simp only [step, isOkReg]
    unfold deactivateParticipant
    by_cases h1 : sd = s.owner
    · simp [h1]
    · simp [h1]

theorem counter_exec (s : ChainState) (ops : List Op) :
    (execOps s ops).productCounter = s.productCounter + countReg s ops := by
  induction ops generalizing s with
  | nil => simp [execOps, countReg]
  | cons op ops ih =>
    simp only [execOps, countReg]
    rw [ih (step s op), counter_step]
    omega

/-- Shape of a successful `registerProduct`: counter bumped by one, and the
new counter value returned as the product id. -/
theorem registerProduct_ok_counter (s : ChainState) (sd : Addr)
    (pn pt og : String) (org : Bool) (now : Nat) (s' : ChainState) (r : Nat)
    (h : registerProduct s sd pn pt og org now = .ok (s', r)) :
    s'.productCounter = s.productCounter + 1 ∧ r = s'.productCounter := by
  unfold registerProduct at h
  by_cases h1 : (s.participants sd).isActive
  · by_cases h2 : (s.participants sd).role = .Farmer
    · simp only [h1, h2] at h
      simp at h
      obtain ⟨hs, hr⟩ := h
      subst hs
      subst hr
      exact ⟨rfl, rfl⟩
    · simp [h1, h2] at h
  · simp [h1] at h

/-- A small concrete run used to instantiate theorems: the owner (address 0)
registers a Farmer (1), a QualityInspector (2) and a DeliveryPartner (3),
and the farmer registers product 1. -/
def wOps : List Op :=
  [ .registerParticipant 0 1 "Fred" "fred@farm" .Farmer 1,
    .registerParticipant 0 2 "Ida" "ida@lab" .QualityInspector 1,
    .registerParticipant 0 3 "Dan" "dan@fleet" .DeliveryPartner 1,
    .registerProduct 1 "Apples" "Fruit" "Farm A" true 2 ]

/-- The state reached by `wOps` from a fresh deployment. -/
def wState : ChainState :=
  execOps (initState 0 0) wOps

/-- C1: in every reachable state, a registered product's current stage is
the stage of the last element of its checkpoint log (which in particular is
non-empty). -/
theorem currentStage_eq_last_checkpoint_stage (o : Addr) (t0 : Nat)
    (ops : List Op) (pid : Nat)
    (hex : ((execOps (initState o t0) ops).products pid).exists_ = true) :
    lastStage? ((execOps (initState o t0) ops).productJourney pid) =
      some ((execOps (initState o t0) ops).products pid).currentStage := by
  obtain ⟨h1, h2, h3⟩ := inv_reach o t0 ops
  exact (h3 pid hex).1

theorem currentStage_eq_last_checkpoint_stage_witness :
    ((wState.products 1).exists_ = true) ∧
    lastStage? (wState.productJourney 1) =
      some (wState.products 1).currentStage :=
  ⟨by decide, currentStage_eq_last_checkpoint_stage 0 0 wOps 1 (by decide)⟩

/-- The run refuting C2: after registration, a delivery partner calls
`markDelivered` twice on product 1. -/
def c2Ops : List Op :=
  wOps ++ [ .markDelivered 3 1 9 3, .markDelivered 3 1 9 4 ]

/-- The state reached by `c2Ops`. -/
def c2State : ChainState :=
  execOps (initState 0 0) c2Ops

/-- C2 counterexample: product 1 is registered yet its checkpoint log reads
Harvest, Delivered, Delivered — the stage ordinals are not strictly
increasing from the second entry onward, because a second `markDelivered`
appends another Delivered checkpoint. -/
theorem stage_log_not_strictly_increasing_cex :
    ((c2State.products 1).exists_ = true) ∧
    stagesOf (c2State.productJourney 1) =
      [.Harvest, .Delivered, .Delivered] ∧
    ¬ List.Chain' (fun a b => Stage.ord a < Stage.ord b)
      (stagesOf (c2State.productJourney 1)) := by
  refine ⟨by decide, by decide, ?_⟩
  have hs : stagesOf (c2State.productJourney 1) =
      [.Harvest, .Delivered, .Delivered] := by decide
  rw [hs]
  simp [List.chain'_cons, Stage.ord]

/-- C2 amended: in every reachable state a registered product's checkpoint
log is non-empty and its stage ordinals are non-decreasing; every adjacent
pair strictly increases except that a repeated Delivered entry (produced by
`markDelivered` on an already-Delivered product) may follow a Delivered
entry. -/
theorem stage_log_monotone (o : Addr) (t0 : Nat) (ops : List Op) (pid : Nat)
    (hex : ((execOps (initState o t0) ops).products pid).exists_ = true) :
    (execOps (initState o t0) ops).productJourney pid ≠ [] ∧
    List.Chain' StageAdj
      (stagesOf ((execOps (initState o t0) ops).productJourney pid)) ∧
    List.Chain' (fun a b => Stage.ord a ≤ Stage.ord b)
      (stagesOf ((execOps (initState o t0) ops).productJourney pid)) := by
  obtain ⟨h1, h2, h3⟩ := inv_reach o t0 ops
  obtain ⟨hl, hc⟩ := h3 pid hex
  refine ⟨?_, hc, ?_⟩
  · intro hnil
    rw [hnil] at hl
    simp [lastStage?] at hl
  · exact List.Chain'.imp (fun a b hab => stageAdj_ord_le hab) hc

theorem stage_log_monotone_witness :
    ((c2State.products 1).exists_ = true) ∧
    (c2State.productJourney 1 ≠ [] ∧
     List.Chain' StageAdj (stagesOf (c2State.productJourney 1)) ∧
     List.Chain' (fun a b => Stage.ord a ≤ Stage.ord b)
       (stagesOf (c2State.productJourney 1))) :=
  ⟨by decide, stage_log_monotone 0 0 c2Ops 1 (by decide)⟩

/-- Whether an invocation writes the participant record stored at `a`. -/
def opTargets : Op → Addr → Bool
  | .registerParticipant _ ad _ _ _ _, a => ad == a
  | .deactivateParticipant _ ad, a => ad == a
  | _, _ => false

/-- Whether an invocation is a `registerParticipant` aimed at `a`. -/
def targetsParticipantReg : Op → Addr → Bool
  | .registerParticipant _ ad _ _ _ _, a => ad == a
  | _, _ => false

/-- Operations that do not write the participant record at `a` leave it
untouched. -/
theorem participants_step_untouched (s : ChainState) (op : Op) (a : Addr)
    (h : opTargets op a = false) :
    (step s op).participants a = s.participants a := by
  cases op with
  | registerParticipant sd ad n c r t =>
    have had : a ≠ ad := by
      intro hh
      simp [opTargets, hh] at h
    simp only [step]
    unfold registerParticipant
    by_cases h1 : sd = s.owner
    · by_cases h2 : (s.participants ad).isActive
      · simp [h1, h2]
      · simp [h1, h2, updNat_other _ _ _ had]
    · simp [h1]
  | deactivateParticipant sd ad =>
    have had : a ≠ ad := by
      intro hh
      simp [opTargets, hh] at h
    simp only [step]
    unfold deactivateParticipant
    by_cases h1 : sd = s.owner
    · simp [h1, updNat_other _ _ _ had]
    · simp [h1]
  | registerProduct sd pn pt og org now =>
    simp only [step]
    unfold registerProduct
    by_cases h1 : (s.participants sd).isActive
    · by_cases h2 : (s.participants sd).role = .Farmer
      · simp [h1, h2]
      · simp [h1, h2]
    · simp [h1]
  | addCheckpoint sd pid stage loc temp notes ipfs now =>
    simp only [step]
    unfold addCheckpoint
    by_cases h1 : (s.participants sd).isActive
    · by_cases h2 : (s.products pid).exists_
      · by_cases h3 : Stage.ord (s.products pid).currentStage < Stage.ord stage
        · simp [h1, h2, h3]
        · simp [h1, h2, h3]
      · simp [h1, h2]
    · simp [h1]
  | addCertification sd pid cn ca ed ch now =>
    simp only [step]
    unfold addCertification
    by_cases h1 : (s.participants sd).isActive
    · by_cases h2 : (s.products pid).exists_
      · simp [h1, h2]
      · simp [h1, h2]
    · simp [h1]
  | updateQualityScore sd pid score =>
    simp only [step]
    unfold updateQualityScore
    by_cases h1 : (s.participants sd).isActive
    · by_cases h2 : (s.participants sd).role = .QualityInspector
      · by_cases h3 : (s.products pid).exists_
        · by_cases h4 : score ≤ 100
          · simp [h1, h2, h3, h4]
          · simp [h1, h2, h3, h4]
        · simp [h1, h2, h3]
      · simp [h1, h2]
    · simp [h1]
  | markDelivered sd pid customer now =>
    simp only [step]
    unfold markDelivered
    by_cases h1 : (s.participants sd).isActive
    · by_cases h2 : (s.products pid).exists_
      · by_cases h3 : (s.participants sd).role = .DeliveryPartner
        · simp [h1, h2, h3]
        · simp [h1, h2, h3]
      · simp [h1, h2]
    · simp [h1]

/-- Participant records of untouched addresses survive whole runs. -/
theorem participants_exec_untouched (s : ChainState) (ops : List Op)
    (a : Addr) (hops : ∀ op ∈ ops, opTargets op a = false) :
    (execOps s ops).participants a = s.participants a := by
  induction ops generalizing s with
  | nil => rfl
  | cons op ops ih =>
    rw [execOps]
    rw [ih (step s op) (fun op' h' => hops op' (List.mem_cons_of_mem _ h'))]
    exact participants_step_untouched s op a (hops op (List.mem_cons_self _ _))

/-- The run refuting C8: the owner registers Farmer 1, deactivates it, and
then registers address 1 again. -/
def c8OpsA : List Op :=
  [ .registerParticipant 0 1 "Fred" "fred@farm" .Farmer 1,
    .deactivateParticipant 0 1 ]

/-- State in which participant 1 has been deactivated. -/
def c8StateA : ChainState :=
  execOps (initState 0 0) c8OpsA

/-- State after the owner re-registers the deactivated address 1. -/
def c8StateB : ChainState :=
  execOps (initState 0 0)
    (c8OpsA ++ [.registerParticipant 0 1 "Fred again" "fred@farm" .Farmer 2])

/-- C8 counterexample: after deactivation, participant 1 is inactive, yet a
later `registerParticipant` on the same address (accepted because the
guard only rejects currently-active records) makes it active again — so
deactivation is not one-way under the full operation set. -/
theorem deactivated_participant_reactivated_cex :
    ((c8StateA.participants 1).isActive = false) ∧
    ((c8StateB.participants 1).isActive = true) :=
  ⟨by decide, by decide⟩

/-- C8 amended: once a participant is inactive, no operation other than a
`registerParticipant` aimed at that very address ever makes it active
again; the owner can however always re-register the deactivated address,
which does reactivate it. -/
theorem deactivation_one_way_amended (s : ChainState) (a : Addr)
    (hina : (s.participants a).isActive = false) :
    (∀ op, targetsParticipantReg op a = false →
      ((step s op).participants a).isActive = false) ∧
    (∀ n c r t, ∃ s', registerParticipant s s.owner a n c r t = .ok s' ∧
      (s'.participants a).isActive = true) := by
  constructor
  · intro op hop
    cases op with
    | deactivateParticipant sd ad =>
      by_cases had : a = ad
      · simp only [step]
        unfold deactivateParticipant
        by_cases h1 : sd = s.owner
        · simp [h1, had, updNat_self]
        · simp [h1, hina]
      · have hne : opTargets (Op.deactivateParticipant sd ad) a = false := by
          simp only [opTargets, beq_eq_false_iff_ne]
          exact fun hh => had hh.symm
        rw [participants_step_untouched s _ a hne]
        exact hina
    | registerParticipant sd ad n c r t =>
      have hne : opTargets (Op.registerParticipant sd ad n c r t) a = false := by
        simpa only [opTargets, targetsParticipantReg] using hop
      rw [participants_step_untouched s _ a hne]
      exact hina
    | registerProduct sd pn pt og org now =>
      rw [participants_step_untouched s _ a (by simp [opTargets])]
      exact hina
    | addCheckpoint sd pid stage loc temp notes ipfs now =>
      rw [participants_step_untouched s _ a (by simp [opTargets])]
      exact hina
    | addCertification sd pid cn ca ed ch now =>
      rw [participants_step_untouched s _ a (by simp [opTargets])]
      exact hina
    | updateQualityScore sd pid score =>
      rw [participants_step_untouched s _ a (by simp [opTargets])]
      exact hina
    | markDelivered sd pid customer now =>
      rw [participants_step_untouched s _ a (by simp [opTargets])]
      exact hina
  · intro n c r t
    have hok : registerParticipant s s.owner a n c r t = .ok { s with participants := updNat s.participants a { participantAddress := a, name := n, contactInfo := c, role := r, isActive := true, registrationDate := t } } := by
      simp [registerParticipant, hina]
    exact ⟨_, hok, by simp [updNat_self]⟩

theorem deactivation_one_way_amended_witness :
    ((c8StateA.participants 1).isActive = false) ∧
    ((∀ op, targetsParticipantReg op 1 = false →
      ((step c8StateA op).participants 1).isActive = false) ∧
    (∀ n c r t, ∃ s',
      registerParticipant c8StateA c8StateA.owner 1 n c r t = .ok s' ∧
      (s'.participants 1).isActive = true)) :=
  ⟨by decide, deactivation_one_way_amended c8StateA 1 (by decide)⟩

/-- C7: a successful `registerProduct` bumps the counter by exactly one and
returns the new counter as the id; no operation ever decreases the counter;
after a run the counter equals the number of successful registrations in
that run; the registered ids are exactly `1..counter` (dense, no gaps); and
`getTotalProducts` reports the counter. -/
theorem productCounter_spec (o : Addr) (t0 : Nat) (ops : List Op) :
    (∀ sd pn pt og org now s' r,
      registerProduct (execOps (initState o t0) ops) sd pn pt og org now =
          .ok (s', r) →
        s'.productCounter = (execOps (initState o t0) ops).productCounter + 1
          ∧ r = s'.productCounter) ∧
    (∀ op, (execOps (initState o t0) ops).productCounter ≤
      (step (execOps (initState o t0) ops) op).productCounter) ∧
    (execOps (initState o t0) ops).productCounter =
      countReg (initState o t0) ops ∧
    (∀ pid, ((execOps (initState o t0) ops).products pid).exists_ = true ↔
      1 ≤ pid ∧ pid ≤ (execOps (initState o t0) ops).productCounter) ∧
    getTotalProducts (execOps (initState o t0) ops) =
      (execOps (initState o t0) ops).productCounter := by
  refine ⟨?_, ?_, ?_, ?_, rfl⟩
  · intro sd pn pt og org now s' r hr
    exact registerProduct_ok_counter _ sd pn pt og org now s' r hr
  · intro op
    rw [counter_step]
    omega
  · rw [counter_exec]
    simp [initState]
  · exact (inv_reach o t0 ops).1

/-- C3: for an active caller and a registered product, `addCheckpoint`
succeeds exactly when the new stage's ordinal strictly exceeds the current
stage's ordinal (stage skipping allowed); a level-or-backward stage fails
with `InvalidTransition` and leaves the whole state unchanged; success
appends the checkpoint and updates the current stage and temperature,
touching nothing else. -/
theorem addCheckpoint_iff_strict_increase (s : ChainState) (sender : Addr)
    (pid : Nat) (stage : Stage) (loc : String) (temp : Nat)
    (notes ipfs : String) (now : Nat)
    (hact : (s.participants sender).isActive = true)
    (hex : (s.products pid).exists_ = true) :
    ((∃ s', addCheckpoint s sender pid stage loc temp notes ipfs now = .ok s')
        ↔ Stage.ord (s.products pid).currentStage < Stage.ord stage) ∧
    (Stage.ord stage ≤ Stage.ord (s.products pid).currentStage →
      addCheckpoint s sender pid stage loc temp notes ipfs now =
        .error .InvalidTransition ∧
      step s (.addCheckpoint sender pid stage loc temp notes ipfs now) = s) ∧
    (∀ s', addCheckpoint s sender pid stage loc temp notes ipfs now = .ok s' →
      s'.productJourney pid = s.productJourney pid ++
        [{ stage := stage, location := loc, timestamp := now,
           verifiedBy := sender, verifierName := (s.participants sender).name,
           verifierRole := (s.participants sender).role,
           temperature := temp, notes := notes, ipfsHash := ipfs }] ∧
      (s'.products pid).currentStage = stage ∧
      (s'.products pid).temperature = temp ∧
      s'.productCounter = s.productCounter ∧
      s'.participants = s.participants ∧
      s'.productCertifications = s.productCertifications) := by
  by_cases h3 : Stage.ord (s.products pid).currentStage < Stage.ord stage
  · refine ⟨iff_of_true (by simp [addCheckpoint, hact, hex, h3]) h3, ?_, ?_⟩
    · intro hle
      omega
    · intro s' hok
      simp [addCheckpoint, hact, hex, h3] at hok
      subst hok
      refine ⟨by simp [updNat_self], by simp [updNat_self], by
        simp [updNat_self], rfl, rfl, rfl⟩
  · refine ⟨?_, ?_, ?_⟩
    · refine iff_of_false ?_ h3
      intro ⟨s', hok⟩
      simp [addCheckpoint, hact, hex, h3] at hok
    · intro _
      constructor
      · simp [addCheckpoint, hact, hex, h3]
      · simp [step, addCheckpoint, hact, hex, h3]
    · intro s' hok
      simp [addCheckpoint, hact, hex, h3] at hok

theorem addCheckpoint_iff_strict_increase_witness :
    ((wState.participants 2).isActive = true) ∧
    ((wState.products 1).exists_ = true) ∧
    (((∃ s', addCheckpoint wState 2 1 .QualityCheck "Lab" 15 "ok" "" 3 =
          .ok s') ↔
      Stage.ord (wState.products 1).currentStage <
        Stage.ord Stage.QualityCheck) ∧
    (Stage.ord Stage.QualityCheck ≤
        Stage.ord (wState.products 1).currentStage →
      addCheckpoint wState 2 1 .QualityCheck "Lab" 15 "ok" "" 3 =
        .error .InvalidTransition ∧
      step wState (.addCheckpoint 2 1 .QualityCheck "Lab" 15 "ok" "" 3) =
        wState) ∧
    (∀ s', addCheckpoint wState 2 1 .QualityCheck "Lab" 15 "ok" "" 3 =
        .ok s' →
      s'.productJourney 1 = wState.productJourney 1 ++
        [{ stage := .QualityCheck, location := "Lab", timestamp := 3,
           verifiedBy := 2, verifierName := (wState.participants 2).name,
           verifierRole := (wState.participants 2).role,
           temperature := 15, notes := "ok", ipfsHash := "" }] ∧
      (s'.products 1).currentStage = .QualityCheck ∧
      (s'.products 1).temperature = 15 ∧
      s'.productCounter = wState.productCounter ∧
      s'.participants = wState.participants ∧
      s'.productCertifications = wState.productCertifications)) :=
  ⟨by decide, by decide,
    addCheckpoint_iff_strict_increase wState 2 1 .QualityCheck "Lab" 15 "ok"
      "" 3 (by decide) (by decide)⟩

/-- C4: `registerProduct` by an inactive caller fails with `NotActive`, and
by an active caller whose role is not Farmer fails with `Unauthorized`; in
both cases the whole state — in particular the product counter, the product
map and the journeys — is unchanged. -/
theorem registerProduct_auth_failures (s : ChainState) (sender : Addr)
    (pn pt og : String) (org : Bool) (now : Nat) :
    ((s.participants sender).isActive = false →
      registerProduct s sender pn pt og org now = .error .NotActive ∧
      step s (.registerProduct sender pn pt og org now) = s) ∧
    ((s.participants sender).isActive = true →
      (s.participants sender).role ≠ .Farmer →
      registerProduct s sender pn pt og org now = .error .Unauthorized ∧
      step s (.registerProduct sender pn pt og org now) = s) := by
  constructor
  · intro hin
    constructor
    · simp [registerProduct, hin]
    · simp [step, registerProduct, hin]
  · intro hact hrole
    constructor
    · simp [registerProduct, hact, hrole]
    · simp [step, registerProduct, hact, hrole]

theorem registerProduct_auth_failures_witness :
    ((wState.participants 5).isActive = false) ∧
    (registerProduct wState 5 "Pears" "Fruit" "Farm B" false 9 =
        .error .NotActive ∧
      step wState (.registerProduct 5 "Pears" "Fruit" "Farm B" false 9) =
        wState) ∧
    ((wState.participants 2).isActive = true) ∧
    ((wState.participants 2).role ≠ .Farmer) ∧
    (registerProduct wState 2 "Pears" "Fruit" "Farm B" false 9 =
        .error .Unauthorized ∧
      step wState (.registerProduct 2 "Pears" "Fruit" "Farm B" false 9) =
        wState) :=
  ⟨by decide,
    (registerProduct_auth_failures wState 5 "Pears" "Fruit" "Farm B" false
      9).1 (by decide),
    by decide, by decide,
    (registerProduct_auth_failures wState 2 "Pears" "Fruit" "Farm B" false
      9).2 (by decide) (by decide)⟩

/-- C5: for an active caller and a registered product, `updateQualityScore`
with a score above 100 fails with `OutOfRange` leaving the state unchanged;
with a score of at most 100 (so 100 and 0 included) it succeeds and
unconditionally overwrites the product's quality score, changing nothing
else about the product or any other product; an active caller of any role
other than QualityInspector fails with `Unauthorized` and changes nothing. -/
theorem updateQualityScore_spec (s : ChainState) (sender : Addr)
    (pid score : Nat)
    (hact : (s.participants sender).isActive = true)
    (hex : (s.products pid).exists_ = true) :
    ((s.participants sender).role = .QualityInspector →
      (100 < score →
        updateQualityScore s sender pid score = .error .OutOfRange ∧
        step s (.updateQualityScore sender pid score) = s) ∧
      (score ≤ 100 →
        ∃ s', updateQualityScore s sender pid score = .ok s' ∧
          (s'.products pid).qualityScore = score ∧
          (s'.products pid).currentStage = (s.products pid).currentStage ∧
          (s'.products pid).exists_ = true ∧
          (∀ q, q ≠ pid → s'.products q = s.products q) ∧
          s'.productJourney = s.productJourney ∧
          s'.productCounter = s.productCounter)) ∧
    ((s.participants sender).role ≠ .QualityInspector →
      updateQualityScore s sender pid score = .error .Unauthorized ∧
      step s (.updateQualityScore sender pid score) = s) := by
  constructor
  · intro hrole
    constructor
    · intro hhi
      have hn : ¬ score ≤ 100 := by omega
      constructor
      · simp [updateQualityScore, hact, hrole, hex, hn]
      · simp [step, updateQualityScore, hact, hrole, hex, hn]
    · intro hle
      have hok : updateQualityScore s sender pid score = .ok { s with products := updNat s.products pid { s.products pid with qualityScore := score } } := by
        simp [updateQualityScore, hact, hrole, hex, hle]
      refine ⟨_, hok, ?_, ?_, ?_, ?_, rfl, rfl⟩
      · simp [updNat_self]
      · simp [updNat_self]
      · simp [updNat_self, hex]
      · intro q hq
        exact updNat_other _ _ _ hq
  · intro hrole
    constructor
    · simp [updateQualityScore, hact, hrole]
    · simp [step, updateQualityScore, hact, hrole]

theorem updateQualityScore_spec_witness :
    ((wState.participants 2).isActive = true) ∧
    ((wState.products 1).exists_ = true) ∧
    ((wState.participants 2).role = .QualityInspector) ∧
    (updateQualityScore wState 2 1 101 = .error .OutOfRange ∧
      step wState (.updateQualityScore 2 1 101) = wState) ∧
    (∃ s', updateQualityScore wState 2 1 100 = .ok s' ∧
      (s'.products 1).qualityScore = 100 ∧
      (s'.products 1).currentStage = (wState.products 1).currentStage ∧
      (s'.products 1).exists_ = true ∧
      (∀ q, q ≠ 1 → s'.products q = wState.products q) ∧
      s'.productJourney = wState.productJourney ∧
      s'.productCounter = wState.productCounter) ∧
    (∃ s', updateQualityScore wState 2 1 0 = .ok s' ∧
      (s'.products 1).qualityScore = 0 ∧
      (s'.products 1).currentStage = (wState.products 1).currentStage ∧
      (s'.products 1).exists_ = true ∧
      (∀ q, q ≠ 1 → s'.products q = wState.products q) ∧
      s'.productJourney = wState.productJourney ∧
      s'.productCounter = wState.productCounter) ∧
    ((wState.participants 1).isActive = true) ∧
    ((wState.participants 1).role ≠ .QualityInspector) ∧
    (updateQualityScore wState 1 1 50 = .error .Unauthorized ∧
      step wState (.updateQualityScore 1 1 50) = wState) :=
  ⟨by decide, by decide, by decide,
    ((updateQualityScore_spec wState 2 1 101 (by decide) (by decide)).1
      (by decide)).1 (by decide),
    ((updateQualityScore_spec wState 2 1 100 (by decide) (by decide)).1
      (by decide)).2 (by decide),
    ((updateQualityScore_spec wState 2 1 0 (by decide) (by decide)).1
      (by decide)).2 (by decide),
    by decide, by decide,
    (updateQualityScore_spec wState 1 1 50 (by decide) (by decide)).2
      (by decide)⟩

/-- C6: for an active DeliveryPartner caller and a registered product,
`markDelivered` always succeeds — whatever the current stage, even
Delivered — forcing the current stage to Delivered and appending a terminal
checkpoint at "Customer Location" that carries forward the product's last
recorded temperature. -/
theorem markDelivered_always_succeeds (s : ChainState) (sender : Addr)
    (pid : Nat) (customer : Addr) (now : Nat)
    (hact : (s.participants sender).isActive = true)
    (hrole : (s.participants sender).role = .DeliveryPartner)
    (hex : (s.products pid).exists_ = true) :
    ∃ s', markDelivered s sender pid customer now = .ok s' ∧
      (s'.products pid).currentStage = .Delivered ∧
      s'.productJourney pid = s.productJourney pid ++
        [{ stage := .Delivered, location := "Customer Location",
           timestamp := now, verifiedBy := sender,
           verifierName := (s.participants sender).name,
           verifierRole := .DeliveryPartner,
           temperature := (s.products pid).temperature,
           notes := "Product delivered to customer", ipfsHash := "" }] := by
  have hok : markDelivered s sender pid customer now = .ok { s with products := updNat s.products pid { s.products pid with currentStage := .Delivered }, productJourney := updNat s.productJourney pid (s.productJourney pid ++ [{ stage := .Delivered, location := "Customer Location", timestamp := now, verifiedBy := sender, verifierName := (s.participants sender).name, verifierRole := .DeliveryPartner, temperature := (s.products pid).temperature, notes := "Product delivered to customer", ipfsHash := "" }]) } := by
    simp [markDelivered, hact, hrole, hex]
  refine ⟨_, hok, ?_, ?_⟩
  · simp [updNat_self]
  · simp [updNat_self]

theorem markDelivered_always_succeeds_witness :
    ((c2State.participants 3).isActive = true) ∧
    ((c2State.participants 3).role = .DeliveryPartner) ∧
    ((c2State.products 1).exists_ = true) ∧
    ((c2State.products 1).currentStage = .Delivered) ∧
    (∃ s', markDelivered c2State 3 1 9 5 = .ok s' ∧
      (s'.products 1).currentStage = .Delivered ∧
      s'.productJourney 1 = c2State.productJourney 1 ++
        [{ stage := .Delivered, location := "Customer Location",
           timestamp := 5, verifiedBy := 3,
           verifierName := (c2State.participants 3).name,
           verifierRole := .DeliveryPartner,
           temperature := (c2State.products 1).temperature,
           notes := "Product delivered to customer", ipfsHash := "" }]) :=
  ⟨by decide, by decide, by decide, by decide,
    markDelivered_always_succeeds c2State 3 1 9 5 (by decide) (by decide)
      (by decide)⟩

theorem productCounter_spec_witness :
    (∀ sd pn pt og org now s' r,
      registerProduct wState sd pn pt og org now = .ok (s', r) →
        s'.productCounter = wState.productCounter + 1
          ∧ r = s'.productCounter) ∧
    (∀ op, wState.productCounter ≤ (step wState op).productCounter) ∧
    wState.productCounter = countReg (initState 0 0) wOps ∧
    (∀ pid, (wState.products pid).exists_ = true ↔
      1 ≤ pid ∧ pid ≤ wState.productCounter) ∧
    getTotalProducts wState = wState.productCounter :=
  productCounter_spec 0 0 wOps

/-- C9: for a registered product, the read accessors return the stored
journey and certification lists unchanged; `getCheckpoint` fails with
`IndexOutOfRange` exactly when the index is at least the checkpoint count,
and otherwise returns the stored checkpoint's exposed fields; and every
checkpoint appended by `addCheckpoint` or `markDelivered`, every
certification appended by `addCertification`, and the initial Harvest
checkpoint created by `registerProduct`, are retrievable unchanged at the
position given by append order. -/
theorem roundtrip_accessors (s : ChainState) (pid : Nat)
    (hex : (s.products pid).exists_ = true) :
    (getProductJourney s pid = .ok (s.productJourney pid)) ∧
    (getProductCertifications s pid = .ok (s.productCertifications pid)) ∧
    (getCheckpointCount s pid = .ok (s.productJourney pid).length) ∧
    (∀ idx, getCheckpoint s pid idx = .error .IndexOutOfRange ↔
      (s.productJourney pid).length ≤ idx) ∧
    (∀ idx (h : idx < (s.productJourney pid).length),
      getCheckpoint s pid idx = .ok
        (((s.productJourney pid).get ⟨idx, h⟩).stage,
         ((s.productJourney pid).get ⟨idx, h⟩).location,
         ((s.productJourney pid).get ⟨idx, h⟩).timestamp,
         ((s.productJourney pid).get ⟨idx, h⟩).verifiedBy,
         ((s.productJourney pid).get ⟨idx, h⟩).verifierName,
         ((s.productJourney pid).get ⟨idx, h⟩).temperature,
         ((s.productJourney pid).get ⟨idx, h⟩).notes)) ∧
    (∀ sender stage loc temp notes ipfs now s',
      addCheckpoint s sender pid stage loc temp notes ipfs now = .ok s' →
        getProductJourney s' pid = .ok (s.productJourney pid ++
          [{ stage := stage, location := loc, timestamp := now,
             verifiedBy := sender,
             verifierName := (s.participants sender).name,
             verifierRole := (s.participants sender).role,
             temperature := temp, notes := notes, ipfsHash := ipfs }]) ∧
        getCheckpoint s' pid (s.productJourney pid).length = .ok
          (stage, loc, now, sender, (s.participants sender).name, temp,
            notes)) ∧
    (∀ sender customer now s',
      markDelivered s sender pid customer now = .ok s' →
        getProductJourney s' pid = .ok (s.productJourney pid ++
          [{ stage := .Delivered, location := "Customer Location",
             timestamp := now, verifiedBy := sender,
             verifierName := (s.participants sender).name,
             verifierRole := .DeliveryPartner,
             temperature := (s.products pid).temperature,
             notes := "Product delivered to customer", ipfsHash := "" }])) ∧
    (∀ sender cn ca ed ch now s',
      addCertification s sender pid cn ca ed ch now = .ok s' →
        getProductCertifications s' pid = .ok
          (s.productCertifications pid ++
            [{ certName := cn, certAuthority := ca, certDate := now,
               expiryDate := ed, certHash := ch, isValid := true }])) ∧
    (∀ sender pn pt og org now s' r,
      registerProduct s sender pn pt og org now = .ok (s', r) →
        getProductJourney s' r = .ok (s.productJourney r ++
          [{ stage := .Harvest, location := og, timestamp := now,
             verifiedBy := sender,
             verifierName := (s.participants sender).name,
             verifierRole := .Farmer, temperature := 0,
             notes := "Product harvested", ipfsHash := "" }])) := by
  refine ⟨?_, ?_, ?_, ?_, ?_, ?_, ?_, ?_, ?_⟩
  · simp [getProductJourney, hex]
  · simp [getProductCertifications, hex]
  · simp [getCheckpointCount, hex]
  · intro idx
    by_cases h : idx < (s.productJourney pid).length
    · refine iff_of_false ?_ (by omega)
      simp [getCheckpoint, hex, h]
    · refine iff_of_true ?_ (by omega)
      simp [getCheckpoint, hex, h]
  · intro idx h
    simp [getCheckpoint, hex, h]
  · intro sender stage loc temp notes ipfs now s' hok
    unfold addCheckpoint at hok
    by_cases h1 : (s.participants sender).isActive
    · by_cases h3 : Stage.ord (s.products pid).currentStage < Stage.ord stage
      · simp [h1, hex, h3] at hok
        subst hok
        constructor
        · simp [getProductJourney, updNat_self, hex]
        · simp [getCheckpoint, updNat_self, hex, List.getElem_concat_length]
      · simp [h1, hex, h3] at hok
    · simp [h1] at hok
  · intro sender customer now s' hok
    unfold markDelivered at hok
    by_cases h1 : (s.participants sender).isActive
    · by_cases h3 : (s.participants sender).role = .DeliveryPartner
      · simp [h1, hex, h3] at hok
        subst hok
        simp [getProductJourney, updNat_self, hex]
      · simp [h1, hex, h3] at hok
    · simp [h1] at hok
  · intro sender cn ca ed ch now s' hok
    unfold addCertification at hok
    by_cases h1 : (s.participants sender).isActive
    · simp [h1, hex] at hok
      subst hok
      simp [getProductCertifications, updNat_self, hex]
    · simp [h1] at hok
  · intro sender pn pt og org now s' r hok
    unfold registerProduct at hok
    by_cases h1 : (s.participants sender).isActive
    · by_cases h2 : (s.participants sender).role = .Farmer
      · simp [h1, h2] at hok
        obtain ⟨hs, hr⟩ := hok
        subst hs
        subst hr
        simp [getProductJourney, updNat_self]
      · simp [h1, h2] at hok
    · simp [h1] at hok

theorem roundtrip_accessors_witness :
    ((wState.products 1).exists_ = true) ∧
    ((getProductJourney wState 1 = .ok (wState.productJourney 1)) ∧
    (getProductCertifications wState 1 =
      .ok (wState.productCertifications 1)) ∧
    (getCheckpointCount wState 1 = .ok (wState.productJourney 1).length) ∧
    (∀ idx, getCheckpoint wState 1 idx = .error .IndexOutOfRange ↔
      (wState.productJourney 1).length ≤ idx) ∧
    (∀ idx (h : idx < (wState.productJourney 1).length),
      getCheckpoint wState 1 idx = .ok
        (((wState.productJourney 1).get ⟨idx, h⟩).stage,
         ((wState.productJourney 1).get ⟨idx, h⟩).location,
         ((wState.productJourney 1).get ⟨idx, h⟩).timestamp,
         ((wState.productJourney 1).get ⟨idx, h⟩).verifiedBy,
         ((wState.productJourney 1).get ⟨idx, h⟩).verifierName,
         ((wState.productJourney 1).get ⟨idx, h⟩).temperature,
         ((wState.productJourney 1).get ⟨idx, h⟩).notes)) ∧
    (∀ sender stage loc temp notes ipfs now s',
      addCheckpoint wState sender 1 stage loc temp notes ipfs now = .ok s' →
        getProductJourney s' 1 = .ok (wState.productJourney 1 ++
          [{ stage := stage, location := loc, timestamp := now,
             verifiedBy := sender,
             verifierName := (wState.participants sender).name,
             verifierRole := (wState.participants sender).role,
             temperature := temp, notes := notes, ipfsHash := ipfs }]) ∧
        getCheckpoint s' 1 (wState.productJourney 1).length = .ok
          (stage, loc, now, sender, (wState.participants sender).name, temp,
            notes)) ∧
    (∀ sender customer now s',
      markDelivered wState sender 1 customer now = .ok s' →
        getProductJourney s' 1 = .ok (wState.productJourney 1 ++
          [{ stage := .Delivered, location := "Customer Location",
             timestamp := now, verifiedBy := sender,
             verifierName := (wState.participants sender).name,
             verifierRole := .DeliveryPartner,
             temperature := (wState.products 1).temperature,
             notes := "Product delivered to customer", ipfsHash := "" }])) ∧
    (∀ sender cn ca ed ch now s',
      addCertification wState sender 1 cn ca ed ch now = .ok s' →
        getProductCertifications s' 1 = .ok
          (wState.productCertifications 1 ++
            [{ certName := cn, certAuthority := ca, certDate := now,
               expiryDate := ed, certHash := ch, isValid := true }])) ∧
    (∀ sender pn pt og org now s' r,
      registerProduct wState sender pn pt og org now = .ok (s', r) →
        getProductJourney s' r = .ok (wState.productJourney r ++
          [{ stage := .Harvest, location := og, timestamp := now,
             verifiedBy := sender,
             verifierName := (wState.participants sender).name,
             verifierRole := .Farmer, temperature := 0,
             notes := "Product harvested", ipfsHash := "" }]))) :=
  ⟨by decide, roundtrip_accessors wState 1 (by decide)⟩

/-- C10: `getParticipant` is total; for an address never written by any
operation (and distinct from the owner) it returns the zero-value record —
empty name, role Admin (ordinal 0), inactive, registration date 0 — while
the owner is registered at construction as the active Admin participant
"System Admin"; in general it simply exposes the stored record's fields. -/
theorem getParticipant_default_and_owner (o : Addr) (t0 : Nat)
    (ops : List Op) (a : Addr) (ha : a ≠ o)
    (hops : ∀ op ∈ ops, opTargets op a = false) :
    getParticipant (execOps (initState o t0) ops) a =
      ("", Role.Admin, false, 0) ∧
    getParticipant (initState o t0) o =
      ("System Admin", Role.Admin, true, t0) ∧
    (∀ s : ChainState, ∀ b : Addr, getParticipant s b =
      ((s.participants b).name, (s.participants b).role,
       (s.participants b).isActive, (s.participants b).registrationDate)) := by
  refine ⟨?_, ?_, fun s b => rfl⟩
  · unfold getParticipant
    rw [participants_exec_untouched _ ops a hops]
    simp [initState, updNat_other _ _ _ ha, defaultParticipant]
  · simp [getParticipant, initState, updNat_self]

theorem getParticipant_default_and_owner_witness :
    (9 ≠ 0) ∧
    (∀ op ∈ wOps, opTargets op 9 = false) ∧
    (getParticipant (execOps (initState 0 0) wOps) 9 =
      ("", Role.Admin, false, 0) ∧
    getParticipant (initState 0 0) 0 =
      ("System Admin", Role.Admin, true, 0) ∧
    (∀ s : ChainState, ∀ b : Addr, getParticipant s b =
      ((s.participants b).name, (s.participants b).role,
       (s.participants b).isActive, (s.participants b).registrationDate))) :=
  ⟨by decide, by decide,
    getParticipant_default_and_owner 0 0 wOps 9 (by decide) (by decide)⟩

end SupplyChain
